import Mathlib

set_option autoImplicit false

/-!
Verification of two source files of this repository:

* `cpp/tests/experimental/TypeList.hpp` — a compile-time type-list algebra
  (`Types`, `Concat`, `Flatten`, `CrossJoin`, …) used to build typed-test
  parameterizations.  C++ types and type lists are embedded as the inductive
  `util.CType`; each template metafunction becomes a Lean function following
  the template specializations of the header.

* `java/src/main/native/src/ContiguousTableJni.cpp` — the JNI shim around
  `cudf`'s contiguous-table packing.  The JNI environment is embedded as a
  record of oracles for the environment calls the shim makes; the shim's two
  globals become an explicit `ShimState`, `cudf::packed_columns` becomes a
  record tracking each `unique_ptr`'s stored pointer and ownership, and every
  shim function is a pure state-passing translation of its C++ body.
-/

namespace util

/-- A C++ type as seen by `TypeList.hpp`: either a non-list element type
(`int`, `float`, …, identified by name) or a type list `Types<...>`. -/
inductive CType where
  | atom : String → CType
  | types : List CType → CType
deriving Repr

/-- Whether a `CType` is a non-list element type (not a `Types<...>`). -/
def isAtom : CType → Bool
  | .atom _ => true
  | .types _ => false

mutual
/-- Node count of a `CType`, used as the termination measure of `FlattenL`. -/
def weight : CType → Nat
  | .atom _ => 1
  | .types l => 1 + weightL l

/-- Node count of a list of `CType`s. -/
def weightL : List CType → Nat
  | [] => 0
  | h :: t => weight h + weightL t
end

theorem weightL_append (a b : List CType) : weightL (a ++ b) = weightL a + weightL b := by
  induction a with
  | nil => simp [weightL]
  | cons h t ih => simp [weightL, ih]; omega

theorem weight_pos (c : CType) : 0 < weight c := by
  cases c <;> simp [weight]

/-- `FlattenImpl` on the argument pack of a `Types<...>`:
`FlattenImpl<Types<>>` is `Types<>`; a `Types<HEAD...>` head is spliced into
the remaining pack and flattening recurses; a non-list head is kept and
flattening recurses on the tail. -/
def FlattenL : List CType → List CType
  | [] => []
  | .types h :: t => FlattenL (h ++ t)
  | .atom s :: t => .atom s :: FlattenL t
termination_by l => weightL l
decreasing_by
  all_goals simp [weightL, weight, weightL_append] <;> omega

/-- `Flatten<T>`: `FlattenImpl` is only specialized for `Types<...>`
arguments; a non-list argument is a C++ compile error, modelled as the
identity and never reached below. -/
def Flatten : CType → CType
  | .types l => .types (FlattenL l)
  | x => x

/-- `detail::Concat2<A, B>`: merges two `Types<...>` argument packs.  No C++
specialization exists for non-list arguments (compile error); the Lean
fallback returns the first argument and is never reached below. -/
def Concat2 : CType → CType → CType
  | .types t, .types u => .types (t ++ u)
  | a, _ => a

/-- `ConcatImpl<T...>`: the empty pack gives `Types<>`, a single argument is
returned as is, and two or more arguments merge the first two via
`detail::Concat2` and recurse. -/
def ConcatImpl : List CType → CType
  | [] => .types []
  | [a] => a
  | h1 :: h2 :: tail => ConcatImpl (Concat2 h1 h2 :: tail)
termination_by l => l.length

/-- `detail::Prepend1<T, TUPLE>`: prepends `T` to the argument pack of a
`Types<...>` and flattens the result.  No C++ specialization exists for a
non-list `TUPLE` (compile error); the fallback is never reached below. -/
def Prepend1 (t : CType) : CType → CType
  | .types args => Flatten (.types (t :: args))
  | x => x

/-- Auxiliary measure for `Prepend`: length of the tuple pack. -/
def packLen : CType → Nat
  | .types l => l.length
  | .atom _ => 0

/-- `detail::Prepend<T, TUPLES>`: the specialization
`Prepend<T, Types<Types<>, TUPLES...>>` drops a leading empty tuple and
recurses; otherwise `T` is prepended to every tuple of the pack via
`Prepend1`.  A non-list `TUPLES` is a C++ compile error (fallback never
reached below). -/
def Prepend (t : CType) : CType → CType
  | .types (.types [] :: tuples) => Prepend t (.types tuples)
  | .types tuples => .types (tuples.map (Prepend1 t))
  | x => x
termination_by c => packLen c
decreasing_by
  simp [packLen]

/-- Weight of one `CrossJoinImpl` argument for the termination measure: the
wrap-in-`Types` step turns a weight-2 head into a weight-1 head. -/
def cjWeight : CType → Nat
  | .atom _ => 2
  | .types _ => 1

/-- Termination measure for `CrossJoin`. -/
def cjMeasure (l : List CType) : Nat := (l.map cjWeight).sum

/-- `CrossJoinImpl<ARGS...>` / `CrossJoin<ARGS...>` over the argument pack:
the empty pack gives `Types<>`; a single `Types<ARGS...>` wraps each element
in its own singleton list; a `Types<AARGS...>` head with a non-empty tail
prepends each head element to every tuple of the cross join of the tail and
concatenates the results; a non-list head is wrapped in a singleton `Types`
first. -/
def CrossJoin : List CType → CType
  | [] => .types []
  | [.types args] => .types (args.map fun a => .types [a])
  | .types aargs :: t :: ts =>
      let cj := CrossJoin (t :: ts)
      ConcatImpl (aargs.map fun a => Prepend a cj)
  | .atom s :: tail => CrossJoin (.types [.atom s] :: tail)
termination_by l => cjMeasure l
decreasing_by
  all_goals simp [cjMeasure, cjWeight] <;> omega

theorem FlattenL_atoms (l : List CType) (h : ∀ x ∈ l, isAtom x = true) :
    FlattenL l = l := by
  induction l with
  | nil => simp [FlattenL]
  | cons x t ih =>
    cases x with
    | atom s =>
      simp only [FlattenL]
      exact congrArg _ (ih fun y hy => h y (List.mem_cons_of_mem _ hy))
    | types m => exact absurd (h _ (List.mem_cons_self _ _)) (by simp [isAtom])

theorem Prepend1_atoms (a : CType) (l : List CType)
    (ha : isAtom a = true) (hl : ∀ y ∈ l, isAtom y = true) :
    Prepend1 a (.types l) = .types (a :: l) := by
  have : FlattenL (a :: l) = a :: l := by
    refine FlattenL_atoms _ fun x hx => ?_
    rcases List.mem_cons.mp hx with rfl | hx
    · exact ha
    · exact hl x hx
  simp [Prepend1, Flatten, this]

theorem Prepend_map_singleton (a : CType) (ys : List CType)
    (ha : isAtom a = true) (hy : ∀ y ∈ ys, isAtom y = true) :
    Prepend a (.types (ys.map fun y => .types [y])) =
      .types (ys.map fun y => .types [a, y]) := by
  cases ys with
  | nil => simp [Prepend]
  | cons y t =>
    have h1 : Prepend a (.types ((y :: t).map fun y => .types [y])) =
        .types (((y :: t).map fun y => .types [y]).map (Prepend1 a)) := by
      simp only [List.map_cons, Prepend]
    rw [h1, List.map_map]
    refine congrArg _ (List.map_congr_left fun x hx => ?_)
    refine Prepend1_atoms a [x] ha fun z hz => ?_
    rw [List.mem_singleton.mp hz]
    exact hy x hx

theorem ConcatImpl_cons_map_types (a : List CType) (rest : List (List CType)) :
    ConcatImpl ((a :: rest).map CType.types) = .types (a ++ rest.flatten) := by
  induction rest generalizing a with
  | nil => simp [ConcatImpl]
  | cons b t ih => simpa [ConcatImpl, Concat2] using ih (a ++ b)

theorem ConcatImpl_map_types (ls : List (List CType)) :
    ConcatImpl (ls.map CType.types) = CType.types ls.flatten := by
  cases ls with
  | nil => simp [ConcatImpl]
  | cons a rest => simpa using ConcatImpl_cons_map_types a rest

theorem length_flatten_pairs (xs ys : List CType) :
    ((xs.map fun x => ys.map fun y => CType.types [x, y]).flatten).length
      = xs.length * ys.length := by
  induction xs with
  | nil => simp
  | cons x t ih => simp [ih, Nat.succ_mul]; omega

/-- C3: for two type lists of non-list element types of sizes `m` and `n`,
`CrossJoin` is the cartesian product: `m*n` inner type lists, each one
element of the first list followed by one element of the second, the first
list's index varying slowest. -/
theorem CrossJoin_two_lists_cartesian (xs ys : List CType)
    (hx : ∀ x ∈ xs, isAtom x = true) (hy : ∀ y ∈ ys, isAtom y = true) :
    CrossJoin [CType.types xs, CType.types ys] =
      CType.types ((xs.map fun x => ys.map fun y => CType.types [x, y]).flatten) ∧
    ((xs.map fun x => ys.map fun y => CType.types [x, y]).flatten).length
      = xs.length * ys.length := by
  refine ⟨?_, length_flatten_pairs xs ys⟩
  have h0 : CrossJoin [CType.types ys] = .types (ys.map fun y => .types [y]) := by
    simp [CrossJoin]
  have h1 : CrossJoin [CType.types xs, CType.types ys] =
      ConcatImpl (xs.map fun a => Prepend a (CrossJoin [CType.types ys])) := by
    simp only [CrossJoin]
  rw [h1, h0]
  have h2 : (xs.map fun a => Prepend a (.types (ys.map fun y => .types [y]))) =
      (xs.map fun x => ys.map fun y => CType.types [x, y]).map CType.types := by
    rw [List.map_map]
    exact List.map_congr_left fun a hax =>
      Prepend_map_singleton a ys (hx a hax) hy
  rw [h2, ConcatImpl_map_types]

/-- C3 witness: the header's own example,
`CrossJoin<Types<int,float>, Types<char,double>>` equals
`Types<Types<int,char>, Types<int,double>, Types<float,char>, Types<float,double>>`. -/
theorem CrossJoin_two_lists_cartesian_witness :
    CrossJoin [CType.types [.atom "int", .atom "float"],
               CType.types [.atom "char", .atom "double"]] =
      CType.types [CType.types [.atom "int", .atom "char"],
                   CType.types [.atom "int", .atom "double"],
                   CType.types [.atom "float", .atom "char"],
                   CType.types [.atom "float", .atom "double"]] ∧
    ([CType.types [CType.atom "int", CType.atom "char"],
      CType.types [CType.atom "int", CType.atom "double"],
      CType.types [CType.atom "float", CType.atom "char"],
      CType.types [CType.atom "float", CType.atom "double"]] : List CType).length = 2 * 2 := by
  have h := CrossJoin_two_lists_cartesian
    [.atom "int", .atom "float"] [.atom "char", .atom "double"]
    (by decide) (by decide)
  simpa using h

end util

namespace cudf.jni

/-- An error signaled to the managed runtime (a pending Java exception). -/
inductive ManagedError where
  | nullPointer (msg : String)
  | fromNative (what : String)
deriving DecidableEq, Repr

/-- The JNI environment, embedded as oracles for the environment calls the
shim makes.  Handles (`jclass`, `jmethodID`, `jobject`) are `Nat`s; `none`
models a `nullptr` result.  `callStaticObjectMethod` receives the (possibly
null) class and method handles and the four `jlong` arguments, in order. -/
structure JNIEnv where
  findClass : String → Option Nat
  getStaticMethodID : Nat → String → String → Option Nat
  newGlobalRef : Nat → Option Nat
  callStaticObjectMethod : Option Nat → Option Nat → Int → Int → Int → Int → Option Nat
  newDirectByteBuffer : Nat → Nat → Option Nat

/-- `reinterpret_cast<jlong>` / `static_cast<jlong>` of a 64-bit pointer or
`size_t` value: two's-complement reinterpretation as a signed 64-bit integer. -/
def toJlong (a : Nat) : Int :=
  if a % 2 ^ 64 < 2 ^ 63 then ((a % 2 ^ 64 : Nat) : Int)
  else ((a % 2 ^ 64 : Nat) : Int) - 2 ^ 64

/-- The shim's process-wide state: the two file-scope globals of
`ContiguousTableJni.cpp`, both null-initialized at namespace scope. -/
structure ShimState where
  Contiguous_table_jclass : Option Nat := none
  From_packed_table_method : Option Nat := none
deriving DecidableEq, Repr

/-- The `CONTIGUOUS_TABLE_CLASS` macro. -/
def CONTIGUOUS_TABLE_CLASS : String := "ai/rapids/cudf/ContiguousTable"

/-- The `CONTIGUOUS_TABLE_FACTORY_SIG(param_sig)` macro:
`"(" param_sig ")L" CONTIGUOUS_TABLE_CLASS ";"`. -/
def CONTIGUOUS_TABLE_FACTORY_SIG (param_sig : String) : String :=
  "(" ++ param_sig ++ ")L" ++ CONTIGUOUS_TABLE_CLASS ++ ";"

/-- Result of `cache_contiguous_table_jni`: the C++ `bool` return, the
updated globals, and the managed errors the body raised (the body contains
no throw, so this trace is built empty by the translation). -/
structure CacheResult where
  ok : Bool
  st : ShimState
  thrown : List ManagedError
deriving Repr

/-- `cache_contiguous_table_jni`: looks up the `ContiguousTable` class, then
the static `fromPackedTable` method with signature
`CONTIGUOUS_TABLE_FACTORY_SIG("JJJJ")` (assigning the global before the null
check, as the C++ does), then converts the class to a global reference;
returns `false` as soon as any of the three yields null, `true` otherwise. -/
def cache_contiguous_table_jni (env : JNIEnv) (st : ShimState) : CacheResult :=
  match env.findClass CONTIGUOUS_TABLE_CLASS with
  | none => { ok := false, st := st, thrown := [] }
  | some cls =>
    let m := env.getStaticMethodID cls "fromPackedTable" (CONTIGUOUS_TABLE_FACTORY_SIG "JJJJ")
    let st1 : ShimState := { st with From_packed_table_method := m }
    match m with
    | none => { ok := false, st := st1, thrown := [] }
    | some _ =>
      let g := env.newGlobalRef cls
      let st2 : ShimState := { st1 with Contiguous_table_jclass := g }
      match g with
      | none => { ok := false, st := st2, thrown := [] }
      | some _ => { ok := true, st := st2, thrown := [] }

/-- Result of `release_contiguous_table_jni`: the updated globals and the
global references passed to `DeleteGlobalRef`. -/
structure ReleaseResult where
  st : ShimState
  deleted : List Nat
deriving DecidableEq, Repr

/-- `release_contiguous_table_jni`: if `Contiguous_table_jclass` is non-null,
deletes the global reference and nulls the class global.  (It does not touch
`From_packed_table_method`.) -/
def release_contiguous_table_jni (st : ShimState) : ReleaseResult :=
  match st.Contiguous_table_jclass with
  | some g => { st := { st with Contiguous_table_jclass := none }, deleted := [g] }
  | none => { st := st, deleted := [] }

/-- Ownership state of a native resource held through a `unique_ptr`:
still owned, ownership relinquished via `release()` (not destroyed), or
destroyed. -/
inductive Ownership where
  | owned
  | released
  | freed
deriving DecidableEq, Repr

/-- `cudf::packed_columns`, as `contiguous_table_from` observes it:
`metadata` is a `unique_ptr` to the serialized-metadata buffer (stored
pointer `metadata_get`), `gpu_data` is a `unique_ptr` to the GPU data buffer
(stored pointer `gpu_data_get`, with `data()` address `gpu_data_data` and
`size()` `gpu_data_size`).  The two `Ownership` fields track each
`unique_ptr`'s ownership of its resource. -/
structure packed_columns where
  metadata_get : Nat
  metadata_own : Ownership
  gpu_data_get : Nat
  gpu_data_data : Nat
  gpu_data_size : Nat
  gpu_data_own : Ownership
deriving DecidableEq, Repr

/-- One `CallStaticObjectMethod` invocation: the class and method handles and
the four `jlong` arguments in call order. -/
structure FactoryCall where
  clazz : Option Nat
  method : Option Nat
  arg1 : Int
  arg2 : Int
  arg3 : Int
  arg4 : Int
deriving DecidableEq, Repr

/-- Result of `contiguous_table_from`: the returned `jobject` (`none` =
null), the `packed_columns` argument as left on return, and the factory
invocations made. -/
structure FromResult where
  obj : Option Nat
  split : packed_columns
  calls : List FactoryCall
deriving DecidableEq, Repr

/-- `contiguous_table_from`: computes the four `jlong` handles
(`split.metadata.get()`, `split.gpu_data->data()`, `split.gpu_data->size()`,
`split.gpu_data.get()`), invokes the cached static factory method once with
them, and — only if the returned object is non-null — calls `release()` on
both `unique_ptr`s (relinquishing ownership and nulling the stored
pointers). -/
def contiguous_table_from (env : JNIEnv) (st : ShimState)
    (split : packed_columns) : FromResult :=
  let metadata_address := toJlong split.metadata_get
  let data_address := toJlong split.gpu_data_data
  let data_size := toJlong split.gpu_data_size
  let rmm_buffer_address := toJlong split.gpu_data_get
  let contig_table_obj := env.callStaticObjectMethod st.Contiguous_table_jclass
    st.From_packed_table_method metadata_address data_address data_size rmm_buffer_address
  let call : FactoryCall :=
    { clazz := st.Contiguous_table_jclass, method := st.From_packed_table_method,
      arg1 := metadata_address, arg2 := data_address,
      arg3 := data_size, arg4 := rmm_buffer_address }
  match contig_table_obj with
  | some o =>
      { obj := some o,
        split := { split with
          metadata_get := 0, metadata_own := .released,
          gpu_data_get := 0, gpu_data_own := .released },
        calls := [call] }
  | none => { obj := none, split := split, calls := [call] }

/-- A `std::vector<uint8_t>` metadata buffer as the entry points observe it:
its `data()` address and its `size()`. -/
structure MetadataVec where
  data_addr : Nat
  size : Nat
deriving DecidableEq, Repr

/-- Native memory as the entry points observe it: the metadata vector read
at each address, and which addresses hold a live allocation that `delete`
acts on. -/
structure NativeHeap where
  vec : Nat → MetadataVec
  live : Nat → Bool

/-- Modelled from the spec: the `JNI_NULL_CHECK` macro (defined in
`cudf_jni_apis.hpp`, which is not under `src/`) signals a null-handle
argument "to the caller via a null-check convention before any work
proceeds": when the handle is null it raises a managed null-pointer error
carrying the given message, and the entry point returns its designated
failure value. -/
def JNI_NULL_CHECK (handle : Nat) (msg : String) : Option ManagedError :=
  if handle = 0 then some (.nullPointer msg) else none

/-- Modelled from the spec: the `CATCH_STD` macro (defined in
`cudf_jni_apis.hpp`, which is not under `src/`) catches a native exception
at the native/managed boundary and translates it "into the managed runtime's
error convention rather than propagating as native faults". -/
def CATCH_STD (what : String) : ManagedError :=
  .fromNative what

/-- Result of `createMetadataDirectBuffer`: the returned `jobject` (the
direct `ByteBuffer`, `none` = null), the native heap on return, the
`NewDirectByteBuffer` calls made (address and capacity), and the managed
error signaled, if any. -/
structure BufferEntryResult where
  ret : Option Nat
  heap : NativeHeap
  viewCalls : List (Nat × Nat)
  signaled : Option ManagedError

/-- `Java_ai_rapids_cudf_ContiguousTable_createMetadataDirectBuffer`:
null-checks the metadata handle, then returns
`NewDirectByteBuffer(metadata->data(), metadata->size())`.  `native_exc`
models a native exception raised inside the `try` body; it is translated by
`CATCH_STD` and the entry point returns its failure value `nullptr`. -/
def Java_ai_rapids_cudf_ContiguousTable_createMetadataDirectBuffer
    (env : JNIEnv) (native_exc : Option String) (heap : NativeHeap)
    (j_metadata_ptr : Nat) : BufferEntryResult :=
  match JNI_NULL_CHECK j_metadata_ptr "metadata is null" with
  | some e => { ret := none, heap := heap, viewCalls := [], signaled := some e }
  | none =>
    match native_exc with
    | some exc =>
        { ret := none, heap := heap, viewCalls := [], signaled := some (CATCH_STD exc) }
    | none =>
        let metadata := heap.vec j_metadata_ptr
        { ret := env.newDirectByteBuffer metadata.data_addr metadata.size,
          heap := heap,
          viewCalls := [(metadata.data_addr, metadata.size)],
          signaled := none }

/-- Result of `closeMetadata` (a `void` entry point): the native heap on
return and the managed error signaled, if any. -/
structure CloseEntryResult where
  heap : NativeHeap
  signaled : Option ManagedError

/-- `Java_ai_rapids_cudf_ContiguousTable_closeMetadata`: null-checks the
metadata handle, then `delete`s the metadata vector (its address stops being
a live allocation).  `native_exc` models a native exception raised inside
the `try` body; it is translated by `CATCH_STD` and the entry point just
returns. -/
def Java_ai_rapids_cudf_ContiguousTable_closeMetadata
    (native_exc : Option String) (heap : NativeHeap)
    (j_metadata_ptr : Nat) : CloseEntryResult :=
  match JNI_NULL_CHECK j_metadata_ptr "metadata is null" with
  | some e => { heap := heap, signaled := some e }
  | none =>
    match native_exc with
    | some exc => { heap := heap, signaled := some (CATCH_STD exc) }
    | none =>
        { heap := { heap with
            live := fun a => if a = j_metadata_ptr then false else heap.live a },
          signaled := none }

/-- A concrete JNI environment used by witnesses: class handle 1, method
handle 2, global references shifted by 10, and a factory whose result is the
parameter `factory`. -/
def probeEnv (factory : Option Nat) : JNIEnv where
  findClass := fun s => if s = CONTIGUOUS_TABLE_CLASS then some 1 else none
  getStaticMethodID := fun c name sig =>
    if c = 1 ∧ name = "fromPackedTable" ∧ sig = CONTIGUOUS_TABLE_FACTORY_SIG "JJJJ"
    then some 2 else none
  newGlobalRef := fun c => some (c + 10)
  callStaticObjectMethod := fun _ _ _ _ _ _ => factory
  newDirectByteBuffer := fun a n => some (a + n)

/-- A concrete `packed_columns` used by witnesses. -/
def probeSplit : packed_columns :=
  { metadata_get := 100, metadata_own := .owned, gpu_data_get := 200,
    gpu_data_data := 300, gpu_data_size := 4, gpu_data_own := .owned }

/-- A concrete native heap used by witnesses. -/
def probeHeap : NativeHeap :=
  { vec := fun _ => { data_addr := 500, size := 16 }, live := fun _ => true }

theorem contiguous_table_from_calls_eq (env : JNIEnv) (st : ShimState)
    (split : packed_columns) :
    (contiguous_table_from env st split).calls =
      [{ clazz := st.Contiguous_table_jclass, method := st.From_packed_table_method,
         arg1 := toJlong split.metadata_get, arg2 := toJlong split.gpu_data_data,
         arg3 := toJlong split.gpu_data_size, arg4 := toJlong split.gpu_data_get }] := by
  cases hcall : env.callStaticObjectMethod st.Contiguous_table_jclass
      st.From_packed_table_method (toJlong split.metadata_get)
      (toJlong split.gpu_data_data) (toJlong split.gpu_data_size)
      (toJlong split.gpu_data_get) <;>
    simp [contiguous_table_from, hcall]

/-- C1: if the factory invocation in `contiguous_table_from` returns a
non-null object, the function releases ownership of both the
serialized-metadata buffer and the GPU data buffer to it (via
`unique_ptr::release`, which relinquishes without destroying), and frees
neither. -/
theorem contiguous_table_from_success_transfers_ownership
    (env : JNIEnv) (st : ShimState) (split : packed_columns)
    (h : (contiguous_table_from env st split).obj ≠ none) :
    (contiguous_table_from env st split).split.metadata_own = .released ∧
    (contiguous_table_from env st split).split.gpu_data_own = .released ∧
    (contiguous_table_from env st split).split.metadata_own ≠ .freed ∧
    (contiguous_table_from env st split).split.gpu_data_own ≠ .freed := by
  cases hcall : env.callStaticObjectMethod st.Contiguous_table_jclass
      st.From_packed_table_method (toJlong split.metadata_get)
      (toJlong split.gpu_data_data) (toJlong split.gpu_data_size)
      (toJlong split.gpu_data_get) with
  | none => exact absurd (by simp [contiguous_table_from, hcall]) h
  | some o => refine ⟨?_, ?_, ?_, ?_⟩ <;> simp [contiguous_table_from, hcall]

/-- C1 witness: a factory returning object 7 leaves both resources
released. -/
theorem contiguous_table_from_success_transfers_ownership_witness :
    (contiguous_table_from (probeEnv (some 7)) {} probeSplit).split.metadata_own
        = .released ∧
    (contiguous_table_from (probeEnv (some 7)) {} probeSplit).split.gpu_data_own
        = .released ∧
    (contiguous_table_from (probeEnv (some 7)) {} probeSplit).split.metadata_own
        ≠ .freed ∧
    (contiguous_table_from (probeEnv (some 7)) {} probeSplit).split.gpu_data_own
        ≠ .freed :=
  contiguous_table_from_success_transfers_ownership (probeEnv (some 7)) {} probeSplit
    (by decide)

/-- C2: after a successful `cache_contiguous_table_jni`,
`contiguous_table_from` makes exactly one factory invocation — of the cached
static `fromPackedTable` method, whose looked-up signature is the four-long
`(JJJJ)Lai/rapids/cudf/ContiguousTable;` — passing the four `jlong` handles
in order: metadata buffer pointer, GPU data pointer, GPU data size,
owning-buffer-handle pointer. -/
theorem contiguous_table_from_single_factory_call
    (env : JNIEnv) (st0 : ShimState) (split : packed_columns) (cls : Nat)
    (hcls : env.findClass CONTIGUOUS_TABLE_CLASS = some cls)
    (hok : (cache_contiguous_table_jni env st0).ok = true) :
    (contiguous_table_from env (cache_contiguous_table_jni env st0).st split).calls =
      [{ clazz := env.newGlobalRef cls,
         method := env.getStaticMethodID cls "fromPackedTable"
           (CONTIGUOUS_TABLE_FACTORY_SIG "JJJJ"),
         arg1 := toJlong split.metadata_get,
         arg2 := toJlong split.gpu_data_data,
         arg3 := toJlong split.gpu_data_size,
         arg4 := toJlong split.gpu_data_get }] ∧
    CONTIGUOUS_TABLE_FACTORY_SIG "JJJJ" = "(JJJJ)Lai/rapids/cudf/ContiguousTable;" := by
  have hstate : (cache_contiguous_table_jni env st0).st.Contiguous_table_jclass
        = env.newGlobalRef cls ∧
      (cache_contiguous_table_jni env st0).st.From_packed_table_method
        = env.getStaticMethodID cls "fromPackedTable"
            (CONTIGUOUS_TABLE_FACTORY_SIG "JJJJ") := by
    cases hm : env.getStaticMethodID cls "fromPackedTable"
        (CONTIGUOUS_TABLE_FACTORY_SIG "JJJJ") with
    | none => simp [cache_contiguous_table_jni, hcls, hm] at hok
    | some mid =>
      cases hg : env.newGlobalRef cls with
      | none => simp [cache_contiguous_table_jni, hcls, hm, hg] at hok
      | some g => simp [cache_contiguous_table_jni, hcls, hm, hg]
  refine ⟨?_, rfl⟩
  rw [contiguous_table_from_calls_eq, hstate.1, hstate.2]

/-- C2 witness: with the probe environment, the single invocation carries
global class reference 11, method handle 2, and the four handles of
`probeSplit` in order. -/
theorem contiguous_table_from_single_factory_call_witness :
    (contiguous_table_from (probeEnv none)
        (cache_contiguous_table_jni (probeEnv none) {}).st probeSplit).calls =
      [{ clazz := some 11, method := some 2,
         arg1 := 100, arg2 := 300, arg3 := 4, arg4 := 200 }] ∧
    CONTIGUOUS_TABLE_FACTORY_SIG "JJJJ" = "(JJJJ)Lai/rapids/cudf/ContiguousTable;" :=
  contiguous_table_from_single_factory_call (probeEnv none) {} probeSplit 1
    (by decide) (by decide)

/-- C4: `cache_contiguous_table_jni` signals lookup failure by its boolean
result — `true` exactly when the class lookup, the `fromPackedTable` static
method lookup and the global-reference creation all yield non-null handles —
and raises no managed error. -/
theorem cache_contiguous_table_jni_signals_by_bool (env : JNIEnv) (st : ShimState) :
    (cache_contiguous_table_jni env st).ok =
      ((env.findClass CONTIGUOUS_TABLE_CLASS).bind fun cls =>
        (env.getStaticMethodID cls "fromPackedTable"
          (CONTIGUOUS_TABLE_FACTORY_SIG "JJJJ")).bind fun _ =>
          env.newGlobalRef cls).isSome ∧
    (cache_contiguous_table_jni env st).thrown = [] := by
  cases hc : env.findClass CONTIGUOUS_TABLE_CLASS with
  | none => simp [cache_contiguous_table_jni, hc]
  | some cls =>
    cases hm : env.getStaticMethodID cls "fromPackedTable"
        (CONTIGUOUS_TABLE_FACTORY_SIG "JJJJ") with
    | none => simp [cache_contiguous_table_jni, hc, hm]
    | some mid =>
      cases hg : env.newGlobalRef cls with
      | none => simp [cache_contiguous_table_jni, hc, hm, hg]
      | some g => simp [cache_contiguous_table_jni, hc, hm, hg]

/-- C5: both exported entry points null-check their metadata-handle argument
before any work: on a null handle, `createMetadataDirectBuffer` signals a
managed null-pointer error and returns null without touching the buffer (no
view is created and the heap is unchanged), and `closeMetadata` signals the
error and returns without deleting anything. -/
theorem entry_points_null_check (env : JNIEnv) (exc : Option String)
    (heap : NativeHeap) :
    Java_ai_rapids_cudf_ContiguousTable_createMetadataDirectBuffer env exc heap 0 =
      { ret := none, heap := heap, viewCalls := [],
        signaled := some (.nullPointer "metadata is null") } ∧
    Java_ai_rapids_cudf_ContiguousTable_closeMetadata exc heap 0 =
      { heap := heap, signaled := some (.nullPointer "metadata is null") } :=
  ⟨rfl, rfl⟩

/-- C6: a native exception raised inside the body of either entry point is
caught at the native/managed boundary and translated into a managed error,
with the entry point returning its designated failure value; it never
escapes the entry point. -/
theorem entry_points_catch_native_exceptions (env : JNIEnv) (heap : NativeHeap)
    (exc : String) (p : Nat) (hp : p ≠ 0) :
    Java_ai_rapids_cudf_ContiguousTable_createMetadataDirectBuffer env (some exc) heap p =
      { ret := none, heap := heap, viewCalls := [],
        signaled := some (.fromNative exc) } ∧
    Java_ai_rapids_cudf_ContiguousTable_closeMetadata (some exc) heap p =
      { heap := heap, signaled := some (.fromNative exc) } := by
  constructor <;>
    simp [Java_ai_rapids_cudf_ContiguousTable_createMetadataDirectBuffer,
      Java_ai_rapids_cudf_ContiguousTable_closeMetadata, JNI_NULL_CHECK, CATCH_STD, hp]

/-- C6 witness: at handle 5 with native exception "boom", both entry points
signal the translated managed error and return their failure values. -/
theorem entry_points_catch_native_exceptions_witness :
    Java_ai_rapids_cudf_ContiguousTable_createMetadataDirectBuffer (probeEnv none)
        (some "boom") probeHeap 5 =
      { ret := none, heap := probeHeap, viewCalls := [],
        signaled := some (.fromNative "boom") } ∧
    Java_ai_rapids_cudf_ContiguousTable_closeMetadata (some "boom") probeHeap 5 =
      { heap := probeHeap, signaled := some (.fromNative "boom") } :=
  entry_points_catch_native_exceptions (probeEnv none) probeHeap "boom" 5 (by decide)

/-- C7: for a non-null metadata handle, `createMetadataDirectBuffer` returns
the direct byte buffer built on the metadata vector's `data()` address with
its `size()` as capacity (and makes exactly that one view call), and
`closeMetadata` deallocates the metadata vector at that handle, leaving the
rest of the heap unchanged. -/
theorem entry_points_view_and_release (env : JNIEnv) (heap : NativeHeap)
    (p : Nat) (hp : p ≠ 0) :
    Java_ai_rapids_cudf_ContiguousTable_createMetadataDirectBuffer env none heap p =
      { ret := env.newDirectByteBuffer (heap.vec p).data_addr (heap.vec p).size,
        heap := heap,
        viewCalls := [((heap.vec p).data_addr, (heap.vec p).size)],
        signaled := none } ∧
    (Java_ai_rapids_cudf_ContiguousTable_closeMetadata none heap p).heap.live p = false ∧
    (Java_ai_rapids_cudf_ContiguousTable_closeMetadata none heap p).heap.vec = heap.vec ∧
    (∀ a, a ≠ p →
      (Java_ai_rapids_cudf_ContiguousTable_closeMetadata none heap p).heap.live a
        = heap.live a) ∧
    (Java_ai_rapids_cudf_ContiguousTable_closeMetadata none heap p).signaled = none := by
  refine ⟨?_, ?_, ?_, ?_, ?_⟩ <;>
    simp [Java_ai_rapids_cudf_ContiguousTable_createMetadataDirectBuffer,
      Java_ai_rapids_cudf_ContiguousTable_closeMetadata, JNI_NULL_CHECK, hp] <;>
    tauto

/-- C7 witness: at handle 5 on the probe heap, the returned view is built on
address 500 with capacity 16, and handle 5 stops being live. -/
theorem entry_points_view_and_release_witness :
    Java_ai_rapids_cudf_ContiguousTable_createMetadataDirectBuffer (probeEnv none)
        none probeHeap 5 =
      { ret := some 516, heap := probeHeap, viewCalls := [(500, 16)],
        signaled := none } ∧
    (Java_ai_rapids_cudf_ContiguousTable_closeMetadata none probeHeap 5).heap.live 5
        = false ∧
    (Java_ai_rapids_cudf_ContiguousTable_closeMetadata none probeHeap 5).heap.vec
        = probeHeap.vec ∧
    (∀ a, a ≠ 5 →
      (Java_ai_rapids_cudf_ContiguousTable_closeMetadata none probeHeap 5).heap.live a
        = probeHeap.live a) ∧
    (Java_ai_rapids_cudf_ContiguousTable_closeMetadata none probeHeap 5).signaled
        = none :=
  entry_points_view_and_release (probeEnv none) probeHeap 5 (by decide)

/-- C8 counterexample: initialize the cache with the probe environment (so
both globals are set), then call `release_contiguous_table_jni`; the cached
method handle is still set (`some 2`), refuting "after it runs, neither
cached handle from initialization remains set". -/
theorem release_does_not_clear_method_handle :
    (cache_contiguous_table_jni (probeEnv none) {}).ok = true ∧
    ¬ ((release_contiguous_table_jni
          (cache_contiguous_table_jni (probeEnv none) {}).st).st.From_packed_table_method
        = none) ∧
    (release_contiguous_table_jni
        (cache_contiguous_table_jni (probeEnv none) {}).st).st.From_packed_table_method
      = some 2 := by
  decide

/-- C8 (amended): the shim's process-wide state is the cached pair of lookup
handles, and one call to `release_contiguous_table_jni` clears the cached
class reference while leaving the cached method handle unchanged. -/
theorem release_clears_class_ref_only (st : ShimState) :
    (release_contiguous_table_jni st).st.Contiguous_table_jclass = none ∧
    (release_contiguous_table_jni st).st.From_packed_table_method
      = st.From_packed_table_method := by
  cases hc : st.Contiguous_table_jclass <;>
    simp [release_contiguous_table_jni, hc]

/-- C9: if the factory invocation returns null, `contiguous_table_from`
returns null and leaves the `packed_columns` argument unchanged — in
particular, ownership of both buffers stays with the caller. -/
theorem contiguous_table_from_null_leaves_input_unchanged
    (env : JNIEnv) (st : ShimState) (split : packed_columns)
    (h : (contiguous_table_from env st split).obj = none) :
    (contiguous_table_from env st split).split = split ∧
    (contiguous_table_from env st split).split.metadata_own = split.metadata_own ∧
    (contiguous_table_from env st split).split.gpu_data_own = split.gpu_data_own := by
  cases hcall : env.callStaticObjectMethod st.Contiguous_table_jclass
      st.From_packed_table_method (toJlong split.metadata_get)
      (toJlong split.gpu_data_data) (toJlong split.gpu_data_size)
      (toJlong split.gpu_data_get) with
  | none => refine ⟨?_, ?_, ?_⟩ <;> simp [contiguous_table_from, hcall]
  | some o => simp [contiguous_table_from, hcall] at h

/-- C9 witness: a factory returning null leaves `probeSplit` unchanged. -/
theorem contiguous_table_from_null_leaves_input_unchanged_witness :
    (contiguous_table_from (probeEnv none) {} probeSplit).split = probeSplit ∧
    (contiguous_table_from (probeEnv none) {} probeSplit).split.metadata_own
      = probeSplit.metadata_own ∧
    (contiguous_table_from (probeEnv none) {} probeSplit).split.gpu_data_own
      = probeSplit.gpu_data_own :=
  contiguous_table_from_null_leaves_input_unchanged (probeEnv none) {} probeSplit
    (by decide)

/-- C10: `release_contiguous_table_jni` is idempotent: on a state whose
cached class reference is already null it performs no state change and
deletes nothing, so two successive calls leave the state of one call. -/
theorem release_contiguous_table_jni_idempotent (st : ShimState) :
    (st.Contiguous_table_jclass = none →
      release_contiguous_table_jni st = { st := st, deleted := [] }) ∧
    (release_contiguous_table_jni
        (release_contiguous_table_jni st).st).st
      = (release_contiguous_table_jni st).st := by
  constructor
  · intro h
    simp [release_contiguous_table_jni, h]
  · cases hc : st.Contiguous_table_jclass <;>
      simp [release_contiguous_table_jni, hc]

/-- C10 witness: on the state with a null class reference and method handle
7, release is a no-op, and a second release after a release changes
nothing. -/
theorem release_contiguous_table_jni_idempotent_witness :
    release_contiguous_table_jni
        { Contiguous_table_jclass := none, From_packed_table_method := some 7 } =
      { st := { Contiguous_table_jclass := none, From_packed_table_method := some 7 },
        deleted := [] } ∧
    (release_contiguous_table_jni
        (release_contiguous_table_jni
          { Contiguous_table_jclass := some 3, From_packed_table_method := some 7 }).st).st
      = (release_contiguous_table_jni
          { Contiguous_table_jclass := some 3, From_packed_table_method := some 7 }).st :=
  ⟨(release_contiguous_table_jni_idempotent
      { Contiguous_table_jclass := none, From_packed_table_method := some 7 }).1 rfl,
   (release_contiguous_table_jni_idempotent
      { Contiguous_table_jclass := some 3, From_packed_table_method := some 7 }).2⟩

end cudf.jni
